import Mathlib

/-!
Shallow embedding of the avax-mp-sdk TypeScript client (src/read.ts and
src/index.ts) and proofs about the claims of its specification.

Modelling conventions:
* JavaScript values that flow into `JSON.stringify` are modelled by `JsVal`
  (which has an `jsUndefined` constructor for `undefined`); serialized JSON bodies
  are `JVal` (no `undefined`).  `JsVal.serialize` mirrors `JSON.stringify`:
  an `undefined` object field is dropped, an `undefined` array element
  becomes `null`.
* Exceptions are modelled by `JsResult`: `.err m` is a thrown error whose
  `message` is `m`.
* External collaborators (axios, the wallet helpers in `src/utils/helpers`)
  are modelled by an environment record `TradeEnv` whose fields give the
  outcome (returned value or thrown error) of each external call.
* Each trade operation returns its result together with the chronological
  list of externally visible actions (`TraceAction`) it performed, so that
  ordering/occurrence claims (approval pre-checks, broadcasts) can be stated.
-/

/-- Serialized JSON values (output of `JSON.stringify`, viewed structurally). -/
inductive JVal : Type where
  | null : JVal
  | str : String → JVal
  | num : Int → JVal
  | arr : List JVal → JVal
  | obj : List (String × JVal) → JVal
deriving Repr

/-- JavaScript values fed to `JSON.stringify`; `jsUndefined` models `undefined`. -/
inductive JsVal : Type where
  | jsUndefined : JsVal
  | null : JsVal
  | str : String → JsVal
  | num : Int → JsVal
  | arr : List JsVal → JsVal
  | obj : List (String × JsVal) → JsVal
deriving Repr

mutual

/-- `JSON.stringify` on a JavaScript value: `none` when the value is
`undefined` (dropped at object-field position). -/
def JsVal.serialize : JsVal → Option JVal
  | .jsUndefined => none
  | .null => some .null
  | .str s => some (.str s)
  | .num n => some (.num n)
  | .arr xs => some (.arr (JsVal.serializeArr xs))
  | .obj fs => some (.obj (JsVal.serializeObj fs))

/-- Array elements: `undefined` serializes as `null`. -/
def JsVal.serializeArr : List JsVal → List JVal
  | [] => []
  | x :: xs =>
    (match JsVal.serialize x with
     | some v => v
     | none => .null) :: JsVal.serializeArr xs

/-- Object fields: a field whose value is `undefined` is dropped. -/
def JsVal.serializeObj : List (String × JsVal) → List (String × JVal)
  | [] => []
  | (k, v) :: fs =>
    match JsVal.serialize v with
    | some w => (k, w) :: JsVal.serializeObj fs
    | none => JsVal.serializeObj fs

end

/-- A TypeScript optional parameter (`x?: T`): `undefined` when absent. -/
def optJs : Option JsVal → JsVal
  | some v => v
  | none => .jsUndefined

/-- An optional string parameter placed directly in an object literal. -/
def optStr : Option String → JsVal
  | some s => .str s
  | none => .jsUndefined

/-- The axios request config assembled by each Query Client operation. -/
structure ReadRequest where
  method : String
  url : String
  contentType : String
  authorization : String
  data : Option JVal
deriving Repr

/-- `const API_KEY = ""` at the top of src/read.ts. -/
def API_KEY : String := ""

def readBase : String := "https://avax.api.hyperspace.xyz/rest/"

/-- Builds the request record shared by every read operation. -/
def mkReadRequest (endpointName : String) (body : JsVal) : ReadRequest :=
  { method := "post"
    url := readBase ++ endpointName
    contentType := "application/json"
    authorization := API_KEY
    data := body.serialize }

/-- `getUserOwnedNFTs` from src/read.ts.  The `collection ? _ : _` conditional
uses JavaScript truthiness, so an empty-string collection takes the
else branch. -/
def getUserOwnedNFTs (walletAddress : String) (collection : Option String)
    (pagination : Option JsVal) : ReadRequest :=
  let condition : JsVal :=
    match collection with
    | some c =>
      if c ≠ "" then
        .obj [("condition", .obj
                [("owner", .str walletAddress),
                 ("project_ids", .arr [.obj [("project_id", .str c)]])]),
              ("pagination_info", optJs pagination)]
      else
        .obj [("condition", .obj [("owner", .str walletAddress)]),
              ("pagination_info", optJs pagination)]
    | none =>
      .obj [("condition", .obj [("owner", .str walletAddress)]),
            ("pagination_info", optJs pagination)]
  mkReadRequest "get-marketplace-snapshots" condition

/-- `getCollectionBids` from src/read.ts. -/
def getCollectionBids (collection : String) (pagination : Option JsVal) :
    ReadRequest :=
  mkReadRequest "get-collection-bids-for-project"
    (.obj [("condition", .obj [("contract_address", .str collection)]),
           ("pagination_info", optJs pagination)])

/-- `getUserCollectionBids` from src/read.ts. -/
def getUserCollectionBids (collection : String) (walletAddress : String)
    (pagination : Option JsVal) : ReadRequest :=
  mkReadRequest "get-collection-bids-for-project-and-user"
    (.obj [("condition", .obj
             [("contract_address", .str collection),
              ("buyer_address", .str walletAddress)]),
           ("pagination_info", optJs pagination)])

/-- `getUserListings` from src/read.ts.  Note: `project_ids` is built
unconditionally, with `project_id: collection` even when `collection` is
absent (the field is then dropped by `JSON.stringify`, leaving `[{}]`). -/
def getUserListings (walletAddress : String) (collection : Option String)
    (pagination : Option JsVal) : ReadRequest :=
  mkReadRequest "get-marketplace-snapshot"
    (.obj [("condition", .obj
             [("owner", .str walletAddress),
              ("project_ids", .arr [.obj [("project_id", optStr collection)]]),
              ("listing_type", .str "NORMAL")]),
           ("pagination_info", optJs pagination)])

/-- `getCollectionActivity` from src/read.ts. -/
def getCollectionActivity (collection : String)
    (actionTypes : Option (List String)) (pagination : Option JsVal) :
    ReadRequest :=
  mkReadRequest "get-collection-activity"
    (.obj [("condition", .obj
             [("projects", .arr [.obj [("project_id", .str collection)]]),
              ("action_types",
               match actionTypes with
               | some l => .arr (l.map .str)
               | none => .jsUndefined)]),
           ("pagination_info", optJs pagination)])

/-- `getCollectionListings` from src/read.ts. -/
def getCollectionListings (collection : String) (orderBy : Option JsVal)
    (pagination : Option JsVal) : ReadRequest :=
  mkReadRequest "get-collection-view"
    (.obj [("condition", .obj
             [("project_ids", .arr [.obj [("project_id", .str collection)]]),
              ("listing_type", .str "NORMAL")]),
           ("order_by", optJs orderBy),
           ("pagination_info", optJs pagination)])

/-- `getUserActivity` from src/read.ts. -/
def getUserActivity (walletAddress : String)
    (actionTypes : Option (List String)) (pagination : Option JsVal) :
    ReadRequest :=
  mkReadRequest "get-user-activity"
    (.obj [("condition", .obj
             [("user_address", .str walletAddress),
              ("action_types",
               match actionTypes with
               | some l => .arr (l.map .str)
               | none => .jsUndefined)]),
           ("pagination_info", optJs pagination)])

/-- `getCollectionStats` from src/read.ts.  With a (truthy) collection the
body has `condition.project_ids = [collection]`; without one the body has
no `condition` key at all. -/
def getCollectionStats (collection : Option String) (orderBy : Option JsVal)
    (pagination : Option JsVal) : ReadRequest :=
  let condition : JsVal :=
    match collection with
    | some c =>
      if c ≠ "" then
        .obj [("condition", .obj [("project_ids", .arr [.str c])]),
              ("order_by", optJs orderBy),
              ("pagination_info", optJs pagination)]
      else
        .obj [("order_by", optJs orderBy),
              ("pagination_info", optJs pagination)]
    | none =>
      .obj [("order_by", optJs orderBy),
            ("pagination_info", optJs pagination)]
  mkReadRequest "get-project-stats" condition

/-! ## Trade Client (src/index.ts) -/

/-- Outcome of a JavaScript expression: a value or a thrown error, carrying
the error's `message`. -/
inductive JsResult (α : Type) : Type where
  | ok : α → JsResult α
  | err : String → JsResult α
deriving Repr, DecidableEq

/-- Transaction receipt as consumed by the trade operations
(`txReceipt.status`, `txReceipt.transactionHash`). -/
structure Receipt where
  status : Nat
  transactionHash : Option String
deriving Repr, DecidableEq

/-- One element of the `res.data` array returned by a build endpoint.
`metadata` is the signable order payload (an object, modelled opaquely as a
string); `byte_string` is the ready-to-send encoded transaction. -/
structure BuildEntry where
  byte_string : Option String
  metadata : Option String
deriving Repr, DecidableEq

/-- JavaScript truthiness of a possibly-absent string (absent and `""` are
falsy). -/
def truthyStr : Option String → Bool
  | some s => s ≠ ""
  | none => false

/-- The check `res.data?.length && res.data[0].byte_string`: returns the
encoded transaction when `res.data` is a non-empty array whose first element
has a truthy `byte_string`. -/
def entryByteString? : Option (List BuildEntry) → Option String
  | some (e :: _) =>
    match e.byte_string with
    | some bs => if bs ≠ "" then some bs else none
    | none => none
  | _ => none

/-- The check `res.data?.length && res.data[0].metadata`: returns the order
payload when present (it is an object in the source, hence truthy whenever
present). -/
def entryMetadata? : Option (List BuildEntry) → Option String
  | some (e :: _) => e.metadata
  | _ => none

structure Fee where
  amount : String
deriving Repr, DecidableEq

structure EventLog where
  erc20TokenAmount : String
  fees : List Fee
deriving Repr, DecidableEq

/-- The `metadata` argument of `buyNft`; `event_log` may be absent. -/
structure BuyMetadata where
  event_log : Option EventLog
deriving Repr, DecidableEq

/-- Value of a non-empty all-digit character list, most significant first. -/
def decimalNat? (l : List Char) : Option Nat :=
  match l with
  | [] => none
  | _ =>
    l.foldl
      (fun acc c =>
        acc.bind fun n => if c.isDigit then some (10 * n + (c.toNat - 48)) else none)
      (some 0)

/-- `BigInt(s)` on the decimal strings this SDK feeds it: `""` gives `0`,
a (possibly `-`-prefixed) digit string gives its value, anything else
throws. -/
def jsBigInt (s : String) : Option Int :=
  match s.data with
  | [] => some 0
  | '-' :: rest => (decimalNat? rest).map fun n => -(n : Int)
  | l => (decimalNat? l).map fun n => (n : Int)

/-- Message of the `TypeError` thrown by
`metadata.event_log.erc20TokenAmount` when `event_log` is absent. -/
def undefinedEventLogMsg : String :=
  "Cannot read properties of undefined (reading 'erc20TokenAmount')"

/-- Message of the `SyntaxError` thrown by `BigInt` on a malformed string. -/
def bigIntConvertMsg (s : String) : String :=
  "Cannot convert " ++ s ++ " to a BigInt"

/-- The `totalAmountToPay` computation in `buyNft`:
`[BigInt(metadata.event_log.erc20TokenAmount),
  ...metadata.event_log.fees.map(fee => BigInt(fee.amount))].reduce((a, b) => a + b)`.
The array always has the leading amount, so the initial-value-free `reduce`
never sees an empty array; the possible throws are the property access on a
missing `event_log` and a failing `BigInt` conversion. -/
def computeTotal (metadata : BuyMetadata) : JsResult Int :=
  match metadata.event_log with
  | none => .err undefinedEventLogMsg
  | some ev =>
    match jsBigInt ev.erc20TokenAmount with
    | none => .err (bigIntConvertMsg ev.erc20TokenAmount)
    | some a =>
      match ev.fees.mapM (fun fee => jsBigInt fee.amount) with
      | none => .err "Cannot convert a fee amount to a BigInt"
      | some fs => .ok (fs.foldl (· + ·) a)

/-- Externally visible actions of a trade operation, in program order. -/
inductive TraceAction : Type where
  | balanceCheck : TraceAction
  | approvalCheck : TraceAction
  | approvalTx : TraceAction
  | buildCall : TraceAction
  | signTx : TraceAction
  | validate : String → TraceAction
  | broadcast : String → Option Int → TraceAction
deriving Repr, DecidableEq

/-- Outcomes of the external calls a trade operation performs.  Each field
models one collaborator (axios, the wallet helpers): `.err m` means that
call throws with message `m`. -/
structure TradeEnv where
  /-- `getWavaxBalance(provider, bidder)` -/
  getWavaxBalance : JsResult Int
  /-- `getWavaxApprovalStatus(provider, bidder, wavaxBalance)` -/
  getWavaxApprovalStatus : Int → JsResult Bool
  /-- `getERC721ApprovalStatus(provider, owner, contractAddress)` -/
  getERC721ApprovalStatus : JsResult Bool
  /-- `approveWavax(wallet)` — its receipt's `transactionHash` -/
  approveWavax : JsResult String
  /-- `approveErc721(wallet, contractAddress)` — its receipt's hash -/
  approveErc721 : JsResult String
  /-- `axios.request` on the build endpoint — `res.data` on success -/
  buildResult : JsResult (Option (List BuildEntry))
  /-- `handleSignTransaction(orderData, wallet)` — `transactionBlockBytes` -/
  handleSignTransaction : String → JsResult String
  /-- `JSON.parse(transactionBlockBytes)` — the order object, opaque -/
  jsonParse : String → JsResult String
  /-- `this.validateSignature(orderObject)` — the raw response, opaque -/
  validateSignature : String → JsResult String
  /-- `handleSignAndExecute({data, value?}, wallet)` — the receipt -/
  handleSignAndExecute : String → Option Int → JsResult Receipt

/-- The `{digest, tokensPurchased?, errors}` object the broadcast-path
operations return. -/
structure TradeResult where
  digest : Option String
  tokensPurchased : Option (List String)
  errors : Option String
deriving Repr, DecidableEq

/-- `buyNft` from src/index.ts: the whole body sits inside `try`, so every
throw is converted into `{digest: null, errors: error.message}`.  Returns
the result and the chronological action trace. -/
def buyNft (env : TradeEnv) (metadata : BuyMetadata) :
    TradeResult × List TraceAction :=
  match env.buildResult with
  | .err m => (⟨none, none, some m⟩, [.buildCall])
  | .ok resData =>
    match computeTotal metadata with
    | .err m => (⟨none, none, some m⟩, [.buildCall])
    | .ok totalAmountToPay =>
      match entryByteString? resData with
      | some encodedTransaction =>
        let tr := [TraceAction.buildCall,
                   TraceAction.broadcast encodedTransaction (some totalAmountToPay)]
        match env.handleSignAndExecute encodedTransaction (some totalAmountToPay) with
        | .err m => (⟨none, none, some m⟩, tr)
        | .ok txReceipt =>
          if txReceipt.status == 1 && truthyStr txReceipt.transactionHash then
            (⟨txReceipt.transactionHash, none, none⟩, tr)
          else
            (⟨none, none,
              some "Failed to sign and execute purchase transaction"⟩, tr)
      | none =>
        (⟨none, some [], some "Failed to create buy txn"⟩, [.buildCall])

/-- The build-then-broadcast tail of `acceptCollectionBid` (everything after
the approval stage, still inside the operation's `try`). -/
def acceptBroadcastPhase (env : TradeEnv) : TradeResult × List TraceAction :=
  match env.buildResult with
  | .err m => (⟨none, none, some m⟩, [.buildCall])
  | .ok resData =>
    match entryByteString? resData with
    | some encodedTransaction =>
      let tr := [TraceAction.buildCall, TraceAction.broadcast encodedTransaction none]
      match env.handleSignAndExecute encodedTransaction none with
      | .err m => (⟨none, none, some m⟩, tr)
      | .ok txReceipt =>
        if txReceipt.status == 1 && truthyStr txReceipt.transactionHash then
          (⟨txReceipt.transactionHash, none, none⟩, tr)
        else
          (⟨none, none,
            some "Failed to sign and execute accept collection bid transaction"⟩,
           tr)
    | none =>
      (⟨none, some [], some "Failed to create accept collection bid txn"⟩,
       [.buildCall])

/-- `acceptCollectionBid` from src/index.ts.  Note: the `try` opens before
the ERC-721 approval check, so approval-stage throws are caught and
normalized like any later failure. -/
def acceptCollectionBid (env : TradeEnv) : TradeResult × List TraceAction :=
  match env.getERC721ApprovalStatus with
  | .err m => (⟨none, none, some m⟩, [.approvalCheck])
  | .ok approved =>
    if approved then
      let (r, t) := acceptBroadcastPhase env
      (r, .approvalCheck :: t)
    else
      match env.approveErc721 with
      | .err m => (⟨none, none, some m⟩, [.approvalCheck, .approvalTx])
      | .ok _ =>
        let (r, t) := acceptBroadcastPhase env
        (r, .approvalCheck :: .approvalTx :: t)

/-- `delistNFT` from src/index.ts.  No approval pre-check; success is
decided by `txHash.transactionHash` alone (the receipt's `status` is not
inspected). -/
def delistNFT (env : TradeEnv) : TradeResult × List TraceAction :=
  match env.buildResult with
  | .err m => (⟨none, none, some m⟩, [.buildCall])
  | .ok resData =>
    match entryByteString? resData with
    | some encodedTransaction =>
      let tr := [TraceAction.buildCall, TraceAction.broadcast encodedTransaction none]
      match env.handleSignAndExecute encodedTransaction none with
      | .err m => (⟨none, none, some m⟩, tr)
      | .ok txHash =>
        if truthyStr txHash.transactionHash then
          (⟨txHash.transactionHash, none, none⟩, tr)
        else
          (⟨none, none, some "Failed to sign and execute delist transaction"⟩,
           tr)
    | none => (⟨none, none, some "Failed to create delist txn"⟩, [.buildCall])

/-- `cancelCollectionBid` from src/index.ts.  Like `delistNFT`, success is
decided by `txHash.transactionHash` alone. -/
def cancelCollectionBid (env : TradeEnv) : TradeResult × List TraceAction :=
  match env.buildResult with
  | .err m => (⟨none, none, some m⟩, [.buildCall])
  | .ok resData =>
    match entryByteString? resData with
    | some encodedTransaction =>
      let tr := [TraceAction.buildCall, TraceAction.broadcast encodedTransaction none]
      match env.handleSignAndExecute encodedTransaction none with
      | .err m => (⟨none, none, some m⟩, tr)
      | .ok txHash =>
        if truthyStr txHash.transactionHash then
          (⟨txHash.transactionHash, none, none⟩, tr)
        else
          (⟨none, none,
            some "Failed to sign and execute cancel collection bid transaction"⟩,
           tr)
    | none =>
      (⟨none, none, some "Failed to create cancel collection bid txn"⟩,
       [.buildCall])

/-- The build–sign–validate tail shared verbatim by `createCollectionBid`
and `listNFT` (src/index.ts lines 89–104 and 154–171): on usable `metadata`
it signs, parses the signed bytes, validates and returns the validation
response; otherwise the function falls through and resolves to `undefined`
(`.ok none`).  No `try` surrounds it, so throws propagate. -/
def signValidatePhase (env : TradeEnv) : JsResult (Option String) × List TraceAction :=
  match env.buildResult with
  | .err m => (.err m, [.buildCall])
  | .ok resData =>
    match entryMetadata? resData with
    | some orderData =>
      match env.handleSignTransaction orderData with
      | .err m => (.err m, [.buildCall, .signTx])
      | .ok transactionBlockBytes =>
        match env.jsonParse transactionBlockBytes with
        | .err m => (.err m, [.buildCall, .signTx])
        | .ok orderObject =>
          match env.validateSignature orderObject with
          | .err m => (.err m, [.buildCall, .signTx, .validate orderObject])
          | .ok isValidRes =>
            (.ok (some isValidRes), [.buildCall, .signTx, .validate orderObject])
    | none => (.ok none, [.buildCall])

/-- `createCollectionBid` from src/index.ts.  No `try` anywhere: balance,
approval-status and approval-transaction throws all propagate to the
caller. -/
def createCollectionBid (env : TradeEnv) : JsResult (Option String) × List TraceAction :=
  match env.getWavaxBalance with
  | .err m => (.err m, [.balanceCheck])
  | .ok wavaxBalance =>
    match env.getWavaxApprovalStatus wavaxBalance with
    | .err m => (.err m, [.balanceCheck, .approvalCheck])
    | .ok approved =>
      if approved then
        let (r, t) := signValidatePhase env
        (r, .balanceCheck :: .approvalCheck :: t)
      else
        match env.approveWavax with
        | .err m => (.err m, [.balanceCheck, .approvalCheck, .approvalTx])
        | .ok _ =>
          let (r, t) := signValidatePhase env
          (r, .balanceCheck :: .approvalCheck :: .approvalTx :: t)

/-- `listNFT` from src/index.ts.  No `try`: approval-stage throws
propagate. -/
def listNFT (env : TradeEnv) : JsResult (Option String) × List TraceAction :=
  match env.getERC721ApprovalStatus with
  | .err m => (.err m, [.approvalCheck])
  | .ok approved =>
    if approved then
      let (r, t) := signValidatePhase env
      (r, .approvalCheck :: t)
    else
      match env.approveErc721 with
      | .err m => (.err m, [.approvalCheck, .approvalTx])
      | .ok _ =>
        let (r, t) := signValidatePhase env
        (r, .approvalCheck :: .approvalTx :: t)

/-! ## Fixtures: a happy-path environment for witnesses and counterexamples -/

/-- A fully successful environment: approvals in place, the build endpoint
returns one entry carrying both payload kinds, signing and broadcasting
succeed with a status-1 receipt. -/
def env0 : TradeEnv :=
  { getWavaxBalance := .ok 5
    getWavaxApprovalStatus := fun _ => .ok true
    getERC721ApprovalStatus := .ok true
    approveWavax := .ok "0xapprovewavax"
    approveErc721 := .ok "0xapprove721"
    buildResult := .ok (some [{ byte_string := some "0xdead", metadata := some "orderdata" }])
    handleSignTransaction := fun _ => .ok "signedbytes"
    jsonParse := fun _ => .ok "orderobject"
    validateSignature := fun _ => .ok "validated"
    handleSignAndExecute := fun _ _ => .ok ⟨1, some "0xhash"⟩ }

/-- The spec's worked example: amount `"1000"`, fees `"50"` and `"25"`. -/
def buyMeta0 : BuyMetadata := ⟨some ⟨"1000", [⟨"50"⟩, ⟨"25"⟩]⟩⟩

/-! ## Helper lemmas -/

lemma foldl_add_eq_add_sum (a : Int) (fs : List Int) :
    fs.foldl (· + ·) a = a + fs.sum := by
  induction fs generalizing a with
  | nil => simp
  | cons x xs ih => simp only [List.foldl_cons, List.sum_cons, ih]; ring

lemma approvalTx_not_mem_signValidatePhase (env : TradeEnv) :
    TraceAction.approvalTx ∉ (signValidatePhase env).2 := by
  cases hb : env.buildResult with
  | err m => simp [signValidatePhase, hb]
  | ok d =>
    cases hm : entryMetadata? d with
    | none => simp [signValidatePhase, hb, hm]
    | some od =>
      cases hs : env.handleSignTransaction od with
      | err m => simp [signValidatePhase, hb, hm, hs]
      | ok bytes =>
        cases hp : env.jsonParse bytes with
        | err m => simp [signValidatePhase, hb, hm, hs, hp]
        | ok order =>
          cases hv : env.validateSignature order with
          | err m => simp [signValidatePhase, hb, hm, hs, hp, hv]
          | ok resp => simp [signValidatePhase, hb, hm, hs, hp, hv]

lemma approvalTx_not_mem_acceptBroadcastPhase (env : TradeEnv) :
    TraceAction.approvalTx ∉ (acceptBroadcastPhase env).2 := by
  cases hb : env.buildResult with
  | err m => simp [acceptBroadcastPhase, hb]
  | ok d =>
    cases hbs : entryByteString? d with
    | none => simp [acceptBroadcastPhase, hb, hbs]
    | some enc =>
      cases hse : env.handleSignAndExecute enc none with
      | err m => simp [acceptBroadcastPhase, hb, hbs, hse]
      | ok rc =>
        by_cases ht : (rc.status == 1 && truthyStr rc.transactionHash) = true <;>
          simp [acceptBroadcastPhase, hb, hbs, hse, ht]

/-! ## C4 -/

/-- C4: given a metadata object whose `event_log.erc20TokenAmount` and fee
amounts all parse as (decimal) `BigInt`s and whose fee list is non-empty,
`buyNft` computes the transaction's `value` as the exact integer sum of the
ERC-20 amount and all fee amounts (arbitrary-precision `Int` arithmetic,
no floating point): the `totalAmountToPay` computation yields exactly
`a + fs.sum`, and every broadcast `buyNft` performs carries exactly that
value. -/
theorem buyNft_value_exact_sum (env : TradeEnv) (metadata : BuyMetadata)
    (ev : EventLog) (a : Int) (fs : List Int)
    (hev : metadata.event_log = some ev)
    (ha : jsBigInt ev.erc20TokenAmount = some a)
    (hfs : ev.fees.mapM (fun fee => jsBigInt fee.amount) = some fs)
    (_hne : ev.fees ≠ []) :
    computeTotal metadata = .ok (a + fs.sum) ∧
    ∀ s v, TraceAction.broadcast s (some v) ∈ (buyNft env metadata).2 →
      v = a + fs.sum := by
  have hct : computeTotal metadata = .ok (a + fs.sum) := by
    unfold computeTotal
    rw [hev]
    simp only [ha, hfs, foldl_add_eq_add_sum]
  refine ⟨hct, ?_⟩
  intro s v hmem
  cases hb : env.buildResult with
  | err m => simp [buyNft, hb] at hmem
  | ok d =>
    cases hbs : entryByteString? d with
    | none => simp [buyNft, hb, hct, hbs] at hmem
    | some enc =>
      cases hse : env.handleSignAndExecute enc (some (a + fs.sum)) with
      | err m =>
        simp [buyNft, hb, hct, hbs, hse] at hmem
        exact hmem.2
      | ok rc =>
        by_cases ht : (rc.status == 1 && truthyStr rc.transactionHash) = true <;>
          · simp [buyNft, hb, hct, hbs, hse, ht] at hmem
            exact hmem.2

/-- C4 witness: the spec's example, `"1000"` with fees `"50"` and `"25"`,
gives exactly `1075`. -/
theorem buyNft_value_exact_sum_witness :
    computeTotal buyMeta0 = .ok 1075 ∧
    ∀ s v, TraceAction.broadcast s (some v) ∈ (buyNft env0 buyMeta0).2 →
      v = 1075 := by
  have h := buyNft_value_exact_sum env0 buyMeta0 ⟨"1000", [⟨"50"⟩, ⟨"25"⟩]⟩
    1000 [50, 25] rfl (by decide) (by decide) (by decide)
  simpa using h

/-! ## C5 -/

/-- C5 counterexample: with an environment whose approval oracle would
report "not approved", `delistNFT` still performs no approval-status check
and submits no approval transaction — its trace is exactly the build call
followed by the broadcast.  This refutes the claim that `delistNFT`
queries the NFT-transfer approval state and approves before proceeding. -/
theorem delistNFT_no_precheck_counterexample :
    (delistNFT { env0 with getERC721ApprovalStatus := .ok false }).2 =
      [.buildCall, .broadcast "0xdead" none] ∧
    TraceAction.approvalCheck ∉
      (delistNFT { env0 with getERC721ApprovalStatus := .ok false }).2 ∧
    TraceAction.approvalTx ∉
      (delistNFT { env0 with getERC721ApprovalStatus := .ok false }).2 := by
  refine ⟨rfl, ?_, ?_⟩ <;> decide

/-- C5 amended: `delistNFT` never queries the approval state and never
submits an approval transaction; for every environment its first external
action is the remote build call. -/
theorem delistNFT_never_checks_approval (env : TradeEnv) :
    TraceAction.approvalCheck ∉ (delistNFT env).2 ∧
    TraceAction.approvalTx ∉ (delistNFT env).2 ∧
    (delistNFT env).2.head? = some .buildCall := by
  cases hb : env.buildResult with
  | err m => simp [delistNFT, hb]
  | ok d =>
    cases hbs : entryByteString? d with
    | none => simp [delistNFT, hbs, hb]
    | some enc =>
      cases hse : env.handleSignAndExecute enc none with
      | err m => simp [delistNFT, hb, hbs, hse]
      | ok rc =>
        by_cases ht : truthyStr rc.transactionHash = true <;>
          simp [delistNFT, hb, hbs, hse, ht]

/-! ## C9 -/

/-- C9: for each write operation with an approval pre-check
(`createCollectionBid`, `listNFT`, `acceptCollectionBid`), when the
approval-status check reports already-approved no approval transaction is
ever submitted, and an approval transaction appears in the trace only when
the check reported not-approved. -/
theorem approval_idempotence (env : TradeEnv) :
    (∀ b, env.getWavaxBalance = .ok b → env.getWavaxApprovalStatus b = .ok true →
      TraceAction.approvalTx ∉ (createCollectionBid env).2) ∧
    (env.getERC721ApprovalStatus = .ok true →
      TraceAction.approvalTx ∉ (listNFT env).2 ∧
      TraceAction.approvalTx ∉ (acceptCollectionBid env).2) ∧
    (TraceAction.approvalTx ∈ (createCollectionBid env).2 →
      ∃ b, env.getWavaxBalance = .ok b ∧ env.getWavaxApprovalStatus b = .ok false) ∧
    ((TraceAction.approvalTx ∈ (listNFT env).2 ∨
      TraceAction.approvalTx ∈ (acceptCollectionBid env).2) →
      env.getERC721ApprovalStatus = .ok false) := by
  refine ⟨?_, ?_, ?_, ?_⟩
  · intro b hb ha
    simp [createCollectionBid, hb, ha, approvalTx_not_mem_signValidatePhase env]
  · intro ha
    constructor
    · simp [listNFT, ha, approvalTx_not_mem_signValidatePhase env]
    · simp [acceptCollectionBid, ha, approvalTx_not_mem_acceptBroadcastPhase env]
  · intro hmem
    cases hb : env.getWavaxBalance with
    | err m => simp [createCollectionBid, hb] at hmem
    | ok b =>
      refine ⟨b, rfl, ?_⟩
      cases ha : env.getWavaxApprovalStatus b with
      | err m => simp [createCollectionBid, hb, ha] at hmem
      | ok approved =>
        cases approved with
        | true =>
          simp [createCollectionBid, hb, ha,
            approvalTx_not_mem_signValidatePhase env] at hmem
        | false => rfl
  · intro hmem
    cases ha : env.getERC721ApprovalStatus with
    | err m =>
      rcases hmem with h | h
      · simp [listNFT, ha] at h
      · simp [acceptCollectionBid, ha] at h
    | ok approved =>
      cases approved with
      | true =>
        rcases hmem with h | h
        · simp [listNFT, ha, approvalTx_not_mem_signValidatePhase env] at h
        · simp [acceptCollectionBid, ha,
            approvalTx_not_mem_acceptBroadcastPhase env] at h
      | false => rfl

/-- C9 witness: in the happy-path environment (already approved) no
approval transaction appears in any of the three traces. -/
theorem approval_idempotence_witness :
    TraceAction.approvalTx ∉ (createCollectionBid env0).2 ∧
    TraceAction.approvalTx ∉ (listNFT env0).2 ∧
    TraceAction.approvalTx ∉ (acceptCollectionBid env0).2 := by
  have h := approval_idempotence env0
  exact ⟨h.1 5 rfl rfl, (h.2.1 rfl).1, (h.2.1 rfl).2⟩

/-! ## C8 -/

/-- C8: when the remote build call returns a usable `metadata` payload,
`createCollectionBid` and `listNFT` sign it locally, parse the signed bytes
into an order object, call signature validation with exactly that order
object, and return the validation response; when the build call returns no
usable `metadata`, both resolve to `undefined` (`.ok none`). -/
theorem sign_path_validates_or_undefined (env : TradeEnv) (b : Int)
    (d : Option (List BuildEntry))
    (hbal : env.getWavaxBalance = .ok b)
    (happW : env.getWavaxApprovalStatus b = .ok true)
    (happ721 : env.getERC721ApprovalStatus = .ok true)
    (hbuild : env.buildResult = .ok d) :
    (∀ od bytes order resp,
      entryMetadata? d = some od →
      env.handleSignTransaction od = .ok bytes →
      env.jsonParse bytes = .ok order →
      env.validateSignature order = .ok resp →
      (createCollectionBid env).1 = .ok (some resp) ∧
      TraceAction.validate order ∈ (createCollectionBid env).2 ∧
      (listNFT env).1 = .ok (some resp) ∧
      TraceAction.validate order ∈ (listNFT env).2) ∧
    (entryMetadata? d = none →
      (createCollectionBid env).1 = .ok none ∧
      (listNFT env).1 = .ok none) := by
  constructor
  · intro od bytes order resp hm hs hp hv
    have hphase : signValidatePhase env =
        (.ok (some resp), [.buildCall, .signTx, .validate order]) := by
      simp [signValidatePhase, hbuild, hm, hs, hp, hv]
    refine ⟨?_, ?_, ?_, ?_⟩ <;>
      simp [createCollectionBid, listNFT, hbal, happW, happ721, hphase]
  · intro hm
    have hphase : signValidatePhase env = (.ok none, [.buildCall]) := by
      simp [signValidatePhase, hbuild, hm]
    constructor <;>
      simp [createCollectionBid, listNFT, hbal, happW, happ721, hphase]

/-- C8 witness: in the happy-path environment both operations return the
validation response for the parsed order object, which they validated. -/
theorem sign_path_validates_or_undefined_witness :
    (createCollectionBid env0).1 = .ok (some "validated") ∧
    TraceAction.validate "orderobject" ∈ (createCollectionBid env0).2 ∧
    (listNFT env0).1 = .ok (some "validated") ∧
    TraceAction.validate "orderobject" ∈ (listNFT env0).2 := by
  exact (sign_path_validates_or_undefined env0 5
    (some [{ byte_string := some "0xdead", metadata := some "orderdata" }])
    rfl rfl rfl rfl).1 "orderdata" "signedbytes" "orderobject" "validated"
    rfl rfl rfl rfl

/-! ## C2 -/

/-- C2 counterexample: in `acceptCollectionBid` the `try` opens before the
approval-status check, so an error thrown there does NOT propagate — it is
caught and converted into a `{digest: null, errors: <message>}` result.
This refutes the claim for `acceptCollectionBid`. -/
theorem acceptCollectionBid_approval_error_normalized_counterexample :
    (acceptCollectionBid
      { env0 with getERC721ApprovalStatus := .err "approval check failed" }).1 =
      ⟨none, none, some "approval check failed"⟩ := by
  rfl

/-- C2 amended: approval-stage errors (approval-status check, approval
transaction, and the balance read that precedes the check) propagate
unmodified to the caller for `createCollectionBid` and `listNFT`; in
`acceptCollectionBid` they are instead caught and normalized into
`{digest: null, errors: <message>}` because its `try` block opens before
the approval stage. -/
theorem approval_error_propagation (env : TradeEnv) (m : String) :
    (env.getWavaxBalance = .err m → (createCollectionBid env).1 = .err m) ∧
    (∀ b, env.getWavaxBalance = .ok b → env.getWavaxApprovalStatus b = .err m →
      (createCollectionBid env).1 = .err m) ∧
    (∀ b, env.getWavaxBalance = .ok b → env.getWavaxApprovalStatus b = .ok false →
      env.approveWavax = .err m → (createCollectionBid env).1 = .err m) ∧
    (env.getERC721ApprovalStatus = .err m → (listNFT env).1 = .err m) ∧
    (env.getERC721ApprovalStatus = .ok false → env.approveErc721 = .err m →
      (listNFT env).1 = .err m) ∧
    (env.getERC721ApprovalStatus = .err m →
      (acceptCollectionBid env).1 = ⟨none, none, some m⟩) ∧
    (env.getERC721ApprovalStatus = .ok false → env.approveErc721 = .err m →
      (acceptCollectionBid env).1 = ⟨none, none, some m⟩) := by
  refine ⟨?_, ?_, ?_, ?_, ?_, ?_, ?_⟩
  · intro h; simp [createCollectionBid, h]
  · intro b hb ha; simp [createCollectionBid, hb, ha]
  · intro b hb ha hw; simp [createCollectionBid, hb, ha, hw]
  · intro h; simp [listNFT, h]
  · intro ha hw; simp [listNFT, ha, hw]
  · intro h; simp [acceptCollectionBid, h]
  · intro ha hw; simp [acceptCollectionBid, ha, hw]

/-- C2 witness: concrete approval-stage failures propagate as thrown errors
from `createCollectionBid` and `listNFT`. -/
theorem approval_error_propagation_witness :
    (createCollectionBid
      { env0 with getWavaxApprovalStatus := fun _ => .err "rpc down" }).1 =
      .err "rpc down" ∧
    (listNFT { env0 with getERC721ApprovalStatus := .err "rpc down" }).1 =
      .err "rpc down" := by
  exact ⟨(approval_error_propagation
            { env0 with getWavaxApprovalStatus := fun _ => .err "rpc down" }
            "rpc down").2.1 5 rfl rfl,
         (approval_error_propagation
            { env0 with getERC721ApprovalStatus := .err "rpc down" }
            "rpc down").2.2.2.1 rfl⟩

/-! ## C3 -/

/-- C3 counterexample: `delistNFT` ignores the receipt's `status` — on a
receipt with `status = 0` but a populated hash it still returns
`{digest: <hash>, errors: null}`, refuting "success if and only if the
receipt has status == 1 and a present transaction hash" for the
broadcast-path operations. -/
theorem delistNFT_status_zero_success_counterexample :
    (delistNFT
      { env0 with handleSignAndExecute := fun _ _ => .ok ⟨0, some "0xabc"⟩ }).1 =
      ⟨some "0xabc", none, none⟩ ∧ (0 : Nat) ≠ 1 := by
  exact ⟨rfl, by decide⟩

/-- C3 amended: when the build call returns a `byte_string` and the
broadcast yields receipt `rc`: `buyNft` and `acceptCollectionBid` return
`{digest: <hash>, errors: null}` iff `rc.status == 1` and the hash is
truthy, and a structured `{digest: null, errors: <message>}` otherwise;
`delistNFT` and `cancelCollectionBid` return success iff the hash is truthy
alone, ignoring `rc.status`. -/
theorem broadcast_receipt_outcomes (env : TradeEnv) (metadata : BuyMetadata)
    (d : Option (List BuildEntry)) (bs : String) (rc : Receipt)
    (hbuild : env.buildResult = .ok d)
    (hbs : entryByteString? d = some bs)
    (hse : ∀ s v, env.handleSignAndExecute s v = .ok rc) :
    (∀ t, computeTotal metadata = .ok t →
      (buyNft env metadata).1 =
        if rc.status == 1 && truthyStr rc.transactionHash then
          ⟨rc.transactionHash, none, none⟩
        else ⟨none, none, some "Failed to sign and execute purchase transaction"⟩) ∧
    (env.getERC721ApprovalStatus = .ok true →
      (acceptCollectionBid env).1 =
        if rc.status == 1 && truthyStr rc.transactionHash then
          ⟨rc.transactionHash, none, none⟩
        else ⟨none, none,
          some "Failed to sign and execute accept collection bid transaction"⟩) ∧
    ((delistNFT env).1 =
      if truthyStr rc.transactionHash then ⟨rc.transactionHash, none, none⟩
      else ⟨none, none, some "Failed to sign and execute delist transaction"⟩) ∧
    ((cancelCollectionBid env).1 =
      if truthyStr rc.transactionHash then ⟨rc.transactionHash, none, none⟩
      else ⟨none, none,
        some "Failed to sign and execute cancel collection bid transaction"⟩) := by
  refine ⟨?_, ?_, ?_, ?_⟩
  · intro t ht
    by_cases h : (rc.status == 1 && truthyStr rc.transactionHash) = true <;>
      simp [buyNft, hbuild, hbs, ht, hse, h]
  · intro ha
    have hphase : (acceptBroadcastPhase env).1 =
        if rc.status == 1 && truthyStr rc.transactionHash then
          ⟨rc.transactionHash, none, none⟩
        else ⟨none, none,
          some "Failed to sign and execute accept collection bid transaction"⟩ := by
      by_cases h : (rc.status == 1 && truthyStr rc.transactionHash) = true <;>
        simp [acceptBroadcastPhase, hbuild, hbs, hse, h]
    simpa [acceptCollectionBid, ha] using hphase
  · by_cases h : truthyStr rc.transactionHash = true <;>
      simp [delistNFT, hbuild, hbs, hse, h]
  · by_cases h : truthyStr rc.transactionHash = true <;>
      simp [cancelCollectionBid, hbuild, hbs, hse, h]

/-- C3 witness: in the happy-path environment (status-1 receipt with hash
`"0xhash"`) all four broadcast operations return
`{digest: "0xhash", errors: null}`. -/
theorem broadcast_receipt_outcomes_witness :
    (buyNft env0 buyMeta0).1 = ⟨some "0xhash", none, none⟩ ∧
    (acceptCollectionBid env0).1 = ⟨some "0xhash", none, none⟩ ∧
    (delistNFT env0).1 = ⟨some "0xhash", none, none⟩ ∧
    (cancelCollectionBid env0).1 = ⟨some "0xhash", none, none⟩ := by
  have h := broadcast_receipt_outcomes env0 buyMeta0
    (some [{ byte_string := some "0xdead", metadata := some "orderdata" }])
    "0xdead" ⟨1, some "0xhash"⟩ rfl rfl (fun _ _ => rfl)
  refine ⟨?_, ?_, ?_, ?_⟩
  · simpa using h.1 1075 (by decide)
  · simpa using h.2.1 rfl
  · simpa using h.2.2.1
  · simpa using h.2.2.2


lemma truthyStr_ne_none {o : Option String} (h : truthyStr o = true) :
    o ≠ none := by
  cases o <;> simp [truthyStr] at *

lemma buyNft_digest_iff_errors (env : TradeEnv) (metadata : BuyMetadata) :
    (buyNft env metadata).1.digest = none ↔
      (buyNft env metadata).1.errors ≠ none := by
  cases hb : env.buildResult with
  | err m => simp [buyNft, hb]
  | ok d =>
    cases ht : computeTotal metadata with
    | err m => simp [buyNft, hb, ht]
    | ok t =>
      cases hbs : entryByteString? d with
      | none => simp [buyNft, hb, ht, hbs]
      | some enc =>
        cases hse : env.handleSignAndExecute enc (some t) with
        | err m => simp [buyNft, hb, ht, hbs, hse]
        | ok rc =>
          by_cases h : (rc.status == 1 && truthyStr rc.transactionHash) = true
          · have := truthyStr_ne_none (by
              have := h
              simp only [Bool.and_eq_true, beq_iff_eq] at this
              exact this.2)
            simp [buyNft, hb, ht, hbs, hse, h, this]
          · simp [buyNft, hb, ht, hbs, hse, h]

lemma acceptBroadcastPhase_digest_iff_errors (env : TradeEnv) :
    (acceptBroadcastPhase env).1.digest = none ↔
      (acceptBroadcastPhase env).1.errors ≠ none := by
  cases hb : env.buildResult with
  | err m => simp [acceptBroadcastPhase, hb]
  | ok d =>
    cases hbs : entryByteString? d with
    | none => simp [acceptBroadcastPhase, hb, hbs]
    | some enc =>
      cases hse : env.handleSignAndExecute enc none with
      | err m => simp [acceptBroadcastPhase, hb, hbs, hse]
      | ok rc =>
        by_cases h : (rc.status == 1 && truthyStr rc.transactionHash) = true
        · have := truthyStr_ne_none (by
            have := h
            simp only [Bool.and_eq_true, beq_iff_eq] at this
            exact this.2)
          simp [acceptBroadcastPhase, hb, hbs, hse, h, this]
        · simp [acceptBroadcastPhase, hb, hbs, hse, h]

lemma acceptCollectionBid_digest_iff_errors (env : TradeEnv) :
    (acceptCollectionBid env).1.digest = none ↔
      (acceptCollectionBid env).1.errors ≠ none := by
  cases ha : env.getERC721ApprovalStatus with
  | err m => simp [acceptCollectionBid, ha]
  | ok approved =>
    cases approved with
    | true =>
      simpa [acceptCollectionBid, ha] using
        acceptBroadcastPhase_digest_iff_errors env
    | false =>
      cases hw : env.approveErc721 with
      | err m => simp [acceptCollectionBid, ha, hw]
      | ok r =>
        simpa [acceptCollectionBid, ha, hw] using
          acceptBroadcastPhase_digest_iff_errors env

lemma delistNFT_digest_iff_errors (env : TradeEnv) :
    (delistNFT env).1.digest = none ↔ (delistNFT env).1.errors ≠ none := by
  cases hb : env.buildResult with
  | err m => simp [delistNFT, hb]
  | ok d =>
    cases hbs : entryByteString? d with
    | none => simp [delistNFT, hb, hbs]
    | some enc =>
      cases hse : env.handleSignAndExecute enc none with
      | err m => simp [delistNFT, hb, hbs, hse]
      | ok rc =>
        by_cases h : truthyStr rc.transactionHash = true
        · simp [delistNFT, hb, hbs, hse, h, truthyStr_ne_none h]
        · simp [delistNFT, hb, hbs, hse, h]

lemma cancelCollectionBid_digest_iff_errors (env : TradeEnv) :
    (cancelCollectionBid env).1.digest = none ↔
      (cancelCollectionBid env).1.errors ≠ none := by
  cases hb : env.buildResult with
  | err m => simp [cancelCollectionBid, hb]
  | ok d =>
    cases hbs : entryByteString? d with
    | none => simp [cancelCollectionBid, hb, hbs]
    | some enc =>
      cases hse : env.handleSignAndExecute enc none with
      | err m => simp [cancelCollectionBid, hb, hbs, hse]
      | ok rc =>
        by_cases h : truthyStr rc.transactionHash = true
        · simp [cancelCollectionBid, hb, hbs, hse, h, truthyStr_ne_none h]
        · simp [cancelCollectionBid, hb, hbs, hse, h]

/-! ## C1 -/

/-- C1 counterexample: a thrown error whose `message` is the empty string
(`throw new Error("")` is legal JavaScript) is caught and surfaced as
`errors: ""` — an empty string — so a transactional-phase failure does not
always yield a NON-empty `errors` string.  The structured shape and the
no-escape part do hold (see the amended theorem). -/
theorem buyNft_empty_error_message_counterexample :
    (buyNft { env0 with buildResult := .err "" } buyMeta0).1 =
      ⟨none, none, some ""⟩ ∧ "".length = 0 := by
  exact ⟨rfl, rfl⟩

/-- C1 amended: every transactional-phase failure (a throw during or after
the remote build call) in `buyNft`, `acceptCollectionBid`, `delistNFT` and
`cancelCollectionBid` is caught and converted into
`{digest: null, errors: <the thrown error's message>}` — non-empty exactly
when the thrown message is — and no exception ever escapes: every outcome
is a structured result whose `digest` is null iff `errors` is set. -/
theorem tx_phase_failures_normalized (env : TradeEnv) (m : String)
    (metadata : BuyMetadata) :
    (env.buildResult = .err m →
      (buyNft env metadata).1 = ⟨none, none, some m⟩ ∧
      (delistNFT env).1 = ⟨none, none, some m⟩ ∧
      (cancelCollectionBid env).1 = ⟨none, none, some m⟩ ∧
      (env.getERC721ApprovalStatus = .ok true →
        (acceptCollectionBid env).1 = ⟨none, none, some m⟩)) ∧
    ((∀ s v, env.handleSignAndExecute s v = .err m) →
      ∀ d bs, env.buildResult = .ok d → entryByteString? d = some bs →
        ((∀ t, computeTotal metadata = .ok t →
            (buyNft env metadata).1 = ⟨none, none, some m⟩) ∧
         (delistNFT env).1 = ⟨none, none, some m⟩ ∧
         (cancelCollectionBid env).1 = ⟨none, none, some m⟩ ∧
         (env.getERC721ApprovalStatus = .ok true →
           (acceptCollectionBid env).1 = ⟨none, none, some m⟩))) ∧
    ((buyNft env metadata).1.digest = none ↔
      (buyNft env metadata).1.errors ≠ none) ∧
    ((acceptCollectionBid env).1.digest = none ↔
      (acceptCollectionBid env).1.errors ≠ none) ∧
    ((delistNFT env).1.digest = none ↔
      (delistNFT env).1.errors ≠ none) ∧
    ((cancelCollectionBid env).1.digest = none ↔
      (cancelCollectionBid env).1.errors ≠ none) := by
  refine ⟨?_, ?_, buyNft_digest_iff_errors env metadata,
    acceptCollectionBid_digest_iff_errors env,
    delistNFT_digest_iff_errors env,
    cancelCollectionBid_digest_iff_errors env⟩
  · intro h
    refine ⟨by simp [buyNft, h], by simp [delistNFT, h],
      by simp [cancelCollectionBid, h], ?_⟩
    intro ha
    simp [acceptCollectionBid, ha, acceptBroadcastPhase, h]
  · intro hse d bs hb hbs
    refine ⟨?_, ?_, ?_, ?_⟩
    · intro t ht
      simp [buyNft, hb, ht, hbs, hse]
    · simp [delistNFT, hb, hbs, hse]
    · simp [cancelCollectionBid, hb, hbs, hse]
    · intro ha
      simp [acceptCollectionBid, ha, acceptBroadcastPhase, hb, hbs, hse]


/-- C1 witness: a simulated remote failure with message `"remote 500"` is
normalized into `{digest: null, errors: "remote 500"}` by all four
broadcast operations. -/
theorem tx_phase_failures_normalized_witness :
    (buyNft { env0 with buildResult := .err "remote 500" } buyMeta0).1 =
      ⟨none, none, some "remote 500"⟩ ∧
    (delistNFT { env0 with buildResult := .err "remote 500" }).1 =
      ⟨none, none, some "remote 500"⟩ ∧
    (cancelCollectionBid { env0 with buildResult := .err "remote 500" }).1 =
      ⟨none, none, some "remote 500"⟩ ∧
    (acceptCollectionBid { env0 with buildResult := .err "remote 500" }).1 =
      ⟨none, none, some "remote 500"⟩ := by
  have h := (tx_phase_failures_normalized
    { env0 with buildResult := .err "remote 500" } "remote 500" buyMeta0).1 rfl
  exact ⟨h.1, h.2.1, h.2.2.1, h.2.2.2 rfl⟩

/-! ## C10 -/

/-- C10 counterexample: with `event_log` present but `fees = []`, the
`reduce` runs over the singleton array `[BigInt(erc20TokenAmount)]` — which
needs no initial value — so `buyNft` does NOT fail: it broadcasts with
value 1000 and returns the success result, refuting the empty-fees half of
the claim. -/
theorem buyNft_empty_fees_counterexample :
    (buyNft env0 ⟨some ⟨"1000", []⟩⟩).1 = ⟨some "0xhash", none, none⟩ ∧
    TraceAction.broadcast "0xdead" (some 1000) ∈ (buyNft env0 ⟨some ⟨"1000", []⟩⟩).2 := by
  exact ⟨rfl, by decide⟩

/-- C10 amended: for a metadata argument whose `event_log` is missing,
`buyNft` returns `{digest: null, errors: <TypeError message>}` without
broadcasting, even when the build call succeeded and returned a
`byte_string` — the payment-sum computation runs before the `byte_string`
check and its property access on `undefined` throws into the `catch`.  An
empty `fees` array, by contrast, does not fail: the reduced array still
contains the leading ERC-20 amount, so the total is just that amount. -/
theorem buyNft_missing_event_log_fails (env : TradeEnv)
    (metadata : BuyMetadata) (d : Option (List BuildEntry)) :
    (metadata.event_log = none → env.buildResult = .ok d →
      (buyNft env metadata).1 = ⟨none, none, some undefinedEventLogMsg⟩ ∧
      ∀ s v, TraceAction.broadcast s v ∉ (buyNft env metadata).2) ∧
    (∀ ev a, metadata.event_log = some ev → ev.fees = [] →
      jsBigInt ev.erc20TokenAmount = some a →
      computeTotal metadata = .ok a) := by
  constructor
  · intro hev hb
    have hct : computeTotal metadata = .err undefinedEventLogMsg := by
      unfold computeTotal
      rw [hev]
    refine ⟨by simp [buyNft, hb, hct], ?_⟩
    intro s v
    simp [buyNft, hb, hct]
  · intro ev a hev hfees ha
    unfold computeTotal
    rw [hev]
    simp [hfees, ha, List.mapM.loop]

/-- C10 witness: with a successful build returning a `byte_string` but a
metadata argument lacking `event_log`, `buyNft` returns the normalized
TypeError result and its trace contains no broadcast. -/
theorem buyNft_missing_event_log_fails_witness :
    (buyNft env0 ⟨none⟩).1 = ⟨none, none, some undefinedEventLogMsg⟩ ∧
    ∀ s v, TraceAction.broadcast s v ∉ (buyNft env0 ⟨none⟩).2 := by
  exact (buyNft_missing_event_log_fails env0 ⟨none⟩
    (some [{ byte_string := some "0xdead", metadata := some "orderdata" }])).1
    rfl rfl

/-! ## C6 -/

/-- C6 counterexample: the Query Client's Authorization header is the
module-level constant `API_KEY = ""`, not a caller-supplied key — a caller
holding the API key `"caller-secret-key"` has no way to get it into the
header, which stays the empty string. -/
theorem query_auth_hardcoded_counterexample :
    (getUserOwnedNFTs "0xWallet" none none).authorization = "" ∧
    "" ≠ "caller-secret-key" := by
  exact ⟨rfl, by decide⟩

/-- C6 amended: every request issued by a Query Client operation carries an
Authorization header whose value is the module-level `API_KEY` constant —
the raw value with no Bearer scheme — and that constant is the hard-coded
empty string; the operations take no API-key parameter from the caller. -/
theorem query_requests_carry_module_api_key :
    (∀ w c p, (getUserOwnedNFTs w c p).authorization = API_KEY) ∧
    (∀ c p, (getCollectionBids c p).authorization = API_KEY) ∧
    (∀ c w p, (getUserCollectionBids c w p).authorization = API_KEY) ∧
    (∀ w c p, (getUserListings w c p).authorization = API_KEY) ∧
    (∀ c a p, (getCollectionActivity c a p).authorization = API_KEY) ∧
    (∀ c o p, (getCollectionListings c o p).authorization = API_KEY) ∧
    (∀ w a p, (getUserActivity w a p).authorization = API_KEY) ∧
    (∀ c o p, (getCollectionStats c o p).authorization = API_KEY) ∧
    API_KEY = "" := by
  refine ⟨?_, ?_, ?_, ?_, ?_, ?_, ?_, ?_, rfl⟩ <;> intros <;> rfl

/-! ## C7 -/

/-- The serialized tail `pagination_info: <pagination>` of a read body
(dropped when the pagination parameter is absent). -/
def pagField (p : Option JsVal) : List (String × JVal) :=
  JsVal.serializeObj [("pagination_info", optJs p)]

/-- The serialized tail `order_by: <orderBy>, pagination_info: <pagination>`
of a read body (each key dropped when its parameter is absent). -/
def orderPagFields (o p : Option JsVal) : List (String × JVal) :=
  JsVal.serializeObj [("order_by", optJs o), ("pagination_info", optJs p)]

lemma serializeArr_map_str (l : List String) :
    JsVal.serializeArr (l.map .str) = l.map JVal.str := by
  induction l with
  | nil => rfl
  | cons x xs ih => simp [JsVal.serializeArr, JsVal.serialize, ih]

/-- C7 counterexample: `getUserListings` called WITHOUT a collection id
still emits the collection filter key — its condition contains
`project_ids: [{}]` (the inner `project_id: undefined` is dropped by
`JSON.stringify`, the surrounding array is not), refuting "omits every
optional field that was not supplied". -/
theorem getUserListings_project_ids_counterexample :
    (getUserListings "0xW" none none).data =
      some (.obj [("condition", .obj
        [("owner", .str "0xW"),
         ("project_ids", .arr [.obj []]),
         ("listing_type", .str "NORMAL")])]) := by
  rfl

/-- C7 amended: each Query Client operation's body contains exactly the
condition fields its code builds, and unsupplied optional fields are
dropped by serialization — EXCEPT in `getUserListings`, whose condition
always contains `project_ids` (`[{project_id: c}]` with a collection,
`[{}]` without).  `getCollectionStats` omits `condition` entirely without
a (truthy) collection and sets `condition.project_ids = [c]` with one. -/
theorem query_condition_field_shapes :
    (∀ w c p, c ≠ "" →
      (getUserOwnedNFTs w (some c) p).data =
        some (.obj (("condition", .obj
          [("owner", .str w),
           ("project_ids", .arr [.obj [("project_id", .str c)]])]) ::
          pagField p))) ∧
    (∀ w p, (getUserOwnedNFTs w none p).data =
      some (.obj (("condition", .obj [("owner", .str w)]) :: pagField p))) ∧
    (∀ c p, (getCollectionBids c p).data =
      some (.obj (("condition", .obj [("contract_address", .str c)]) ::
        pagField p))) ∧
    (∀ c w p, (getUserCollectionBids c w p).data =
      some (.obj (("condition", .obj
        [("contract_address", .str c), ("buyer_address", .str w)]) ::
        pagField p))) ∧
    (∀ w c p, (getUserListings w (some c) p).data =
      some (.obj (("condition", .obj
        [("owner", .str w),
         ("project_ids", .arr [.obj [("project_id", .str c)]]),
         ("listing_type", .str "NORMAL")]) :: pagField p))) ∧
    (∀ w p, (getUserListings w none p).data =
      some (.obj (("condition", .obj
        [("owner", .str w),
         ("project_ids", .arr [.obj []]),
         ("listing_type", .str "NORMAL")]) :: pagField p))) ∧
    (∀ c p, (getCollectionActivity c none p).data =
      some (.obj (("condition", .obj
        [("projects", .arr [.obj [("project_id", .str c)]])]) :: pagField p))) ∧
    (∀ c l p, (getCollectionActivity c (some l) p).data =
      some (.obj (("condition", .obj
        [("projects", .arr [.obj [("project_id", .str c)]]),
         ("action_types", .arr (l.map JVal.str))]) :: pagField p))) ∧
    (∀ c o p, (getCollectionListings c o p).data =
      some (.obj (("condition", .obj
        [("project_ids", .arr [.obj [("project_id", .str c)]]),
         ("listing_type", .str "NORMAL")]) :: orderPagFields o p))) ∧
    (∀ w p, (getUserActivity w none p).data =
      some (.obj (("condition", .obj [("user_address", .str w)]) ::
        pagField p))) ∧
    (∀ w l p, (getUserActivity w (some l) p).data =
      some (.obj (("condition", .obj
        [("user_address", .str w),
         ("action_types", .arr (l.map JVal.str))]) :: pagField p))) ∧
    (∀ o p, (getCollectionStats none o p).data =
      some (.obj (orderPagFields o p))) ∧
    (∀ c o p, c ≠ "" →
      (getCollectionStats (some c) o p).data =
        some (.obj (("condition", .obj [("project_ids", .arr [.str c])]) ::
          orderPagFields o p))) := by
  refine ⟨?_, ?_, ?_, ?_, ?_, ?_, ?_, ?_, ?_, ?_, ?_, ?_, ?_⟩
  any_goals intros; rfl
  · intro w c p hc
    simp [getUserOwnedNFTs, mkReadRequest, hc, JsVal.serialize,
      JsVal.serializeObj, JsVal.serializeArr, pagField, optJs]
  · intro c l p
    simp [getCollectionActivity, mkReadRequest, JsVal.serialize,
      JsVal.serializeObj, JsVal.serializeArr, pagField, optJs,
      serializeArr_map_str]
  · intro w l p
    simp [getUserActivity, mkReadRequest, JsVal.serialize,
      JsVal.serializeObj, JsVal.serializeArr, pagField, optJs,
      serializeArr_map_str]
  · intro c o p hc
    simp [getCollectionStats, mkReadRequest, hc, JsVal.serialize,
      JsVal.serializeObj, JsVal.serializeArr, orderPagFields, optJs]

/-- C7 witness: the spec's own examples — `getCollectionStats` with no
collection omits `condition` entirely; with collection `"X"` it sets
`condition.project_ids = ["X"]`. -/
theorem query_condition_field_shapes_witness :
    (getCollectionStats none none none).data = some (.obj []) ∧
    (getCollectionStats (some "X") none none).data =
      some (.obj [("condition", .obj [("project_ids", .arr [.str "X"])])]) := by
  exact ⟨(query_condition_field_shapes).2.2.2.2.2.2.2.2.2.2.2.1 none none,
    (query_condition_field_shapes).2.2.2.2.2.2.2.2.2.2.2.2 "X" none none
      (by decide)⟩
